import Mathlib

/-!
Shallow embedding of the ARBITRAGEXSUPREME opportunity pipeline:
the MEV engine ranking/execution loop (apps/mev-engine/src/engine/mod.rs),
the admission/congestion gate (services/sim-ctl/src/congestion.rs),
the RPC failover pool with sticky sessions (services/searcher-rs/src/rpc/mod.rs),
the time guard (services/searcher-rs/src/utils/time_guard.rs), and
the strategy compatibility matrix (services/selector-api/src/compatibility.rs).

Rust f64/f32 quantities that only ever feed arithmetic and order comparisons
are modelled as rationals; u64 counters are modelled as naturals (Rust
integer overflow is a program error: debug builds abort before producing a
wrapped counter value, so no reachable state wraps).  Instant timestamps are
modelled as naturals; HashMaps as association lists whose lookup returns the
most recent insertion.
-/

namespace ArbitrageX

/-! ### Engine: opportunities, ranking, execution, stats
From apps/mev-engine/src/engine/mod.rs and its types module. -/

structure ArbitrageOpportunity where
  id : String
  strategy : String
  blockchain_from : String
  expected_profit : ℚ
  risk_adjusted_profit : ℚ
  deriving DecidableEq

structure ExecutionResult where
  opportunity_id : String
  success : Bool
  actual_profit : ℚ
  /-- gas_used is a string in the source, read back with
  parse::<u64>().unwrap_or(0); modelled as the parse result. -/
  gas_used : Option ℕ
  deriving DecidableEq

structure EngineStats where
  total_cycles : ℕ
  total_executions : ℕ
  successful_executions : ℕ
  failed_executions : ℕ
  total_profit : ℚ
  total_gas_used : ℕ
  deriving DecidableEq

/-- The per-opportunity mutation inside rank_opportunities: the strategy
manager's risk score and the chain connector's gas estimate (both external
calls, passed here as oracle functions) fill risk_adjusted_profit with
expected_profit * (1 - risk_score) - gas_cost. -/
def adjustProfit (riskScore : ArbitrageOpportunity → ℚ)
    (gasCost : String → String → ℚ) (o : ArbitrageOpportunity) :
    ArbitrageOpportunity :=
  { o with risk_adjusted_profit :=
      o.expected_profit * (1 - riskScore o) - gasCost o.blockchain_from o.strategy }

/-- The comparator of rank_opportunities: sort_by with
b.risk_adjusted_profit.partial_cmp(&a.risk_adjusted_profit), i.e. a stable
descending sort; a stays before b precisely when b's profit is at most a's. -/
def rankLE (a b : ArbitrageOpportunity) : Bool :=
  decide (b.risk_adjusted_profit ≤ a.risk_adjusted_profit)

/-- rank_opportunities: fill risk_adjusted_profit for every opportunity,
stable-sort descending by it, truncate to max_concurrent_executions. -/
def rank_opportunities (riskScore : ArbitrageOpportunity → ℚ)
    (gasCost : String → String → ℚ) (max_concurrent : ℕ)
    (opps : List ArbitrageOpportunity) : List ArbitrageOpportunity :=
  (((opps.map (adjustProfit riskScore gasCost)).mergeSort rankLE).take max_concurrent)

/-- execute_opportunities: every element of its input list is dispatched
(spawned and executed or simulated); per-opportunity failures are dropped
from the collected results.  The executor is an oracle returning none for a
task whose execution errored. -/
def execute_opportunities (executor : ArbitrageOpportunity → Option ExecutionResult)
    (opps : List ArbitrageOpportunity) : List ExecutionResult :=
  opps.filterMap executor

/-- The list execute_cycle hands from ranking to execute_opportunities:
exactly the output of rank_opportunities, with no further filtering. -/
def cycleDispatch (riskScore : ArbitrageOpportunity → ℚ)
    (gasCost : String → String → ℚ) (max_concurrent : ℕ)
    (opps : List ArbitrageOpportunity) : List ArbitrageOpportunity :=
  rank_opportunities riskScore gasCost max_concurrent opps

/-- One iteration of the update_stats loop body. -/
def updateStatsOne (s : EngineStats) (r : ExecutionResult) : EngineStats :=
  let s := { s with total_executions := s.total_executions + 1 }
  if r.success then
    { s with successful_executions := s.successful_executions + 1,
             total_profit := s.total_profit + r.actual_profit,
             total_gas_used := s.total_gas_used + r.gas_used.getD 0 }
  else
    { s with failed_executions := s.failed_executions + 1 }

/-- update_stats: fold every execution result into the stats under the
single write lock (the periodic save to the database reads, never writes). -/
def update_stats (s : EngineStats) (results : List ExecutionResult) : EngineStats :=
  results.foldl updateStatsOne s

/-! ### Admission / congestion gate
From services/sim-ctl/src/congestion.rs. -/

structure ResourceThresholds where
  max_concurrent_sims : ℕ
  cpu_threshold_percent : ℚ
  memory_threshold_percent : ℚ
  max_queue_size : ℕ
  resource_check_interval_ms : ℕ
  simulation_timeout_ms : ℕ
  deriving DecidableEq

inductive SimulationPriority where
  | low
  | normal
  | high
  | critical
  deriving DecidableEq

def SimulationPriority.toNat : SimulationPriority → ℕ
  | .low => 0
  | .normal => 1
  | .high => 2
  | .critical => 3

structure SimulationRequest where
  id : String
  priority : SimulationPriority
  submitted_at : ℕ
  timeout_at : ℕ
  deriving DecidableEq

/-- The gate state visible to submit_simulation and the queue processor:
the queue plus the metrics fields those functions read or write. -/
structure GateState where
  thresholds : ResourceThresholds
  queue : List SimulationRequest
  backpressure_active : Bool
  cpu_usage_percent : ℚ
  rejected_requests : ℕ
  queued_requests : ℕ
  timed_out_requests : ℕ
  average_execution_time_ms : ℚ
  deriving DecidableEq

inductive SimulationSubmissionResult where
  | queued (position : ℕ) (estimated_wait_ms : ℕ)
  | rejected (reason : String)
  deriving DecidableEq

/-- should_reject_request: overload is backpressure_active together with a
CPU reading strictly above 95 percent. -/
def should_reject_request (s : GateState) : Bool :=
  s.backpressure_active && decide ((95 : ℚ) < s.cpu_usage_percent)

/-- estimate_wait_time: (queued / max_concurrent) * max(avg_execution, 5000),
cast from f64 to u64 (truncation toward zero; both factors nonnegative). -/
def estimate_wait_time (s : GateState) : ℕ :=
  let avg := max s.average_execution_time_ms 5000
  (⌊((s.queued_requests : ℚ) / (s.thresholds.max_concurrent_sims : ℚ)) * avg⌋).toNat

/-- The comparator of the re-sort at submit time: sort_by with
b.priority.cmp(&a.priority), a stable descending sort on priority. -/
def prioLE (a b : SimulationRequest) : Bool :=
  decide (b.priority.toNat ≤ a.priority.toNat)

/-- submit_simulation: reject under overload, then reject when the queue has
reached max_queue_size, otherwise push the request and stable-sort the queue
by descending priority and report the queue position. -/
def submit_simulation (s : GateState) (request : SimulationRequest) :
    SimulationSubmissionResult × GateState :=
  if should_reject_request s then
    (.rejected "System under pressure - rejecting new requests",
     { s with rejected_requests := s.rejected_requests + 1 })
  else
    let queue_size := s.queue.length
    if s.thresholds.max_queue_size ≤ queue_size then
      (.rejected "Queue full",
       { s with rejected_requests := s.rejected_requests + 1 })
    else
      (.queued (queue_size + 1) (estimate_wait_time s),
       { s with queue := (s.queue ++ [request]).mergeSort prioLE,
                queued_requests := queue_size + 1 })

/-- Outcome of one iteration of the queue-processor loop. -/
inductive DispatchOutcome where
  | idle
  | timedOut
  | started
  | requeued
  deriving DecidableEq

/-- One iteration of start_queue_processor: pop the head; a popped request
with Instant::now() strictly past its timeout_at is counted TimedOut and
dropped; otherwise try_acquire a permit and start it, or push it back to the
front when no permit is free. -/
def processor_step (now : ℕ) (permits : ℕ) (q : List SimulationRequest) :
    DispatchOutcome × List SimulationRequest :=
  match q with
  | [] => (.idle, [])
  | request :: rest =>
    if request.timeout_at < now then (.timedOut, rest)
    else if 0 < permits then (.started, rest)
    else (.requeued, request :: rest)

/-! ### RPC failover pool with sticky sessions
From services/searcher-rs/src/rpc/mod.rs.  A client object is determined by
the provider it was created for (create_client reads only the provider's url
and timeout), so a client is modelled by that provider's name; the
client_cache, keyed by provider name and only ever filled with a client for
that same provider, is modelled by the list of provider names that hold a
cached client.  HashMaps become association lists (lookup finds the most
recent insertion; remove drops every binding of the key). -/

structure RpcProvider where
  name : String
  url : String
  weight : ℕ
  timeout_ms : ℕ
  is_primary : Bool
  supports_trace : Bool
  supports_mempool : Bool
  max_block_lag : ℕ
  deriving DecidableEq

structure HealthCheck where
  is_healthy : Bool
  latency_ms : ℕ
  block_number : ℕ
  consecutive_failures : ℕ
  deriving DecidableEq

structure RpcManagerState where
  providers : List RpcProvider
  health_status : List (String × HealthCheck)
  current_primary : String
  sticky_sessions : List (String × String)
  client_cache : List String
  max_consecutive_failures : ℕ
  deriving DecidableEq

/-- The primary chosen by RpcManager::new: the first provider flagged
is_primary, else providers[0] — which is an out-of-bounds panic (none) on an
empty list. -/
def initial_primary (providers : List RpcProvider) : Option String :=
  match providers.find? (fun p => p.is_primary) with
  | some p => some p.name
  | none =>
    match providers with
    | [] => none
    | p :: _ => some p.name

/-- RpcManager::new, with the providers[0] panic on an empty list surfaced
as none. -/
def RpcManager_new (providers : List RpcProvider) : Option RpcManagerState :=
  (initial_primary providers).map (fun pn =>
    { providers := providers
      health_status := []
      current_primary := pn
      sticky_sessions := []
      client_cache := []
      max_consecutive_failures := 3 })

/-- get_client: return the cached client for the current primary, else
create and cache one when the primary name is a known provider, else fail. -/
def get_client (s : RpcManagerState) : Option (String × RpcManagerState) :=
  let primary_name := s.current_primary
  if s.client_cache.contains primary_name then
    some (primary_name, s)
  else
    match s.providers.find? (fun p => p.name = primary_name) with
    | some _ => some (primary_name, { s with client_cache := primary_name :: s.client_cache })
    | none => none

/-- The fallback path of get_sticky_client: read the current primary, obtain
a client via get_client (propagating its failure before any session is
written), then bind the simulation id to that primary name. -/
def sticky_fallback (s : RpcManagerState) (simulation_id : String) :
    Option (String × RpcManagerState) :=
  let primary_name := s.current_primary
  match get_client s with
  | none => none
  | some (client, s') =>
    some (client, { s' with sticky_sessions := (simulation_id, primary_name) :: s'.sticky_sessions })

/-- get_sticky_client: when a session binds the id to a provider that is
currently healthy and has a cached client, return that client unchanged;
in every other case fall back to binding the current primary. -/
def get_sticky_client (s : RpcManagerState) (simulation_id : String) :
    Option (String × RpcManagerState) :=
  match s.sticky_sessions.lookup simulation_id with
  | some provider_name =>
    match s.health_status.lookup provider_name with
    | some h =>
      if h.is_healthy then
        if s.client_cache.contains provider_name then
          some (provider_name, s)
        else sticky_fallback s simulation_id
      else sticky_fallback s simulation_id
    | none => sticky_fallback s simulation_id
  | none => sticky_fallback s simulation_id

/-- release_sticky_session: drop the binding for the simulation id. -/
def release_sticky_session (s : RpcManagerState) (simulation_id : String) :
    RpcManagerState :=
  { s with sticky_sessions := s.sticky_sessions.filter (fun p => !(p.1 == simulation_id)) }

/-- The comparator of select_best_provider: weight descending, then probe
latency ascending. -/
def providerLE (a b : RpcProvider × HealthCheck) : Bool :=
  decide (b.1.weight < a.1.weight) ||
    (decide (a.1.weight = b.1.weight) && decide (a.2.latency_ms ≤ b.2.latency_ms))

/-- select_best_provider: among providers whose latest health check is
healthy, the best by weight desc then latency asc. -/
def select_best_provider (providers : List RpcProvider)
    (health_results : List (String × HealthCheck)) : Option String :=
  let candidates := providers.filterMap (fun p =>
    match health_results.lookup p.name with
    | some h => if h.is_healthy then some (p, h) else none
    | none => none)
  (candidates.mergeSort providerLE).head?.map (fun c => c.1.name)

/-- One round of the health-monitor task: install the fresh health results,
then replace the primary when its new check is unhealthy or has accumulated
max_consecutive_failures, picking the best healthy provider. -/
def probe_step (s : RpcManagerState) (health_results : List (String × HealthCheck)) :
    RpcManagerState :=
  let s1 := { s with health_status := health_results }
  match health_results.lookup s.current_primary with
  | some ch =>
    if !ch.is_healthy || s.max_consecutive_failures ≤ ch.consecutive_failures then
      match select_best_provider s.providers health_results with
      | some np => { s1 with current_primary := np }
      | none => s1
    else s1
  | none => s1

/-- The operations that touch the manager state between two observations. -/
inductive RpcOp where
  | getSticky (simulation_id : String)
  | release (simulation_id : String)
  | getClientOp
  | probe (health_results : List (String × HealthCheck))

/-- State transition of a single operation (return values discarded). -/
def rpcStep (s : RpcManagerState) : RpcOp → RpcManagerState
  | .getSticky x =>
    match get_sticky_client s x with
    | some (_, s') => s'
    | none => s
  | .release x => release_sticky_session s x
  | .getClientOp =>
    match get_client s with
    | some (_, s') => s'
    | none => s
  | .probe h => probe_step s h

/-- Endpoint e is marked healthy in a health table. -/
def healthyInTable (tbl : List (String × HealthCheck)) (e : String) : Bool :=
  match tbl.lookup e with
  | some h => h.is_healthy
  | none => false

/-- Endpoint e is currently marked healthy. -/
def healthyIn (s : RpcManagerState) (e : String) : Bool :=
  healthyInTable s.health_status e

/-- An operation that neither releases simulation id x nor de-healths
endpoint e: any sticky lookup or client fetch, a release of a different id,
and any probe whose fresh results still report e healthy. -/
def keepsSession (x e : String) : RpcOp → Bool
  | .getSticky _ => true
  | .release y => !(y == x)
  | .getClientOp => true
  | .probe h => healthyInTable h e

/-! ### Time guard
From services/searcher-rs/src/utils/time_guard.rs.  Only the fields the
drift evaluation reads are carried; drift is a signed millisecond count. -/

structure TimeSyncStatus where
  system_time_utc : ℕ
  ntp_time_utc : Option ℕ
  drift_ms : Option ℤ
  is_synchronized : Bool
  deriving DecidableEq

structure TimeGuardConfig where
  check_interval_secs : ℕ
  warning_threshold_ms : ℤ
  critical_threshold_ms : ℤ
  emergency_threshold_ms : ℤ
  max_stratum : ℕ
  auto_restart_chrony : Bool
  deriving DecidableEq

/-- The Default impl for TimeGuardConfig. -/
def TimeGuardConfig.default : TimeGuardConfig :=
  { check_interval_secs := 30
    warning_threshold_ms := 10
    critical_threshold_ms := 50
    emergency_threshold_ms := 200
    max_stratum := 4
    auto_restart_chrony := true }

structure TimeGuard where
  config : TimeGuardConfig
  last_status : Option TimeSyncStatus
  drift_history : List ℤ
  consecutive_alerts : ℕ
  deriving DecidableEq

inductive DriftAlertLevel where
  | normal
  | warning
  | critical
  | emergency
  deriving DecidableEq

/-- is_time_safe: true when a last status exists, it is synchronized, and
its drift sample is present with absolute value strictly below the critical
threshold (map_or makes a missing drift unsafe). -/
def is_time_safe (g : TimeGuard) : Bool :=
  match g.last_status with
  | some status =>
    status.is_synchronized &&
      (match status.drift_ms with
       | some d => decide (|d| < g.config.critical_threshold_ms)
       | none => false)
  | none => false

/-- evaluate_drift: classify the absolute drift against the emergency,
critical and warning thresholds in that order; a missing drift sample is a
warning. -/
def evaluate_drift (g : TimeGuard) (status : TimeSyncStatus) : DriftAlertLevel :=
  match status.drift_ms with
  | some drift =>
    let abs_drift := |drift|
    if g.config.emergency_threshold_ms ≤ abs_drift then .emergency
    else if g.config.critical_threshold_ms ≤ abs_drift then .critical
    else if g.config.warning_threshold_ms ≤ abs_drift then .warning
    else .normal
  | none => .warning

/-! ### Strategy compatibility matrix
From services/selector-api/src/compatibility.rs.  f64 scores and amounts are
rationals; the numeric interpolations inside the failure-reason strings are
omitted (no claim reads them). -/

structure DexInfo where
  name : String
  chain_id : ℕ
  router_address : String
  factory_address : String
  supports_flash_swap : Bool
  supported_fee_tiers : List ℕ
  twap_stability_score : ℚ
  min_liquidity_threshold : ℚ
  gas_overhead : ℕ
  is_active : Bool
  deriving DecidableEq

structure LenderInfo where
  name : String
  chain_id : ℕ
  protocol_address : String
  supported_assets : List String
  flash_loan_fee_bps : ℕ
  max_loan_amount : List (String × ℚ)
  reserves_healthy : Bool
  is_active : Bool
  deriving DecidableEq

structure AssetInfo where
  symbol : String
  address : String
  chain_id : ℕ
  decimals : ℕ
  is_whitelisted : Bool
  min_trade_amount : ℚ
  max_trade_amount : ℚ
  volatility_score : ℚ
  liquidity_score : ℚ
  deriving DecidableEq

structure StrategyRequirements where
  id : String
  name : String
  requires_flash_loan : Bool
  requires_flash_swap : Bool
  min_liquidity_usd : ℚ
  max_slippage_bps : ℕ
  min_twap_stability : ℚ
  supported_chains : List ℕ
  blacklisted_assets : List String
  min_profit_bps : ℕ
  max_gas_limit : ℕ
  complexity_score : ℕ
  deriving DecidableEq

structure CompatibilityEntry where
  strategy_id : String
  strategy_name : String
  chain_id : ℕ
  dex_name : String
  lender_name : Option String
  asset_pair : String × String
  requirements_met : Bool
  failure_reasons : List String
  estimated_gas : Option ℕ
  min_profit_threshold : Option ℚ
  max_position_size : Option ℚ
  deriving DecidableEq

/-- The flash-loan clause of check_compatibility: some lender on the dex's
chain, active, with healthy reserves, supporting both assets. -/
def has_compatible_lender (lenders : List LenderInfo) (dex : DexInfo)
    (asset1 asset2 : AssetInfo) : Bool :=
  lenders.any (fun l =>
    decide (l.chain_id = dex.chain_id) && l.is_active && l.reserves_healthy &&
    l.supported_assets.contains asset1.symbol &&
    l.supported_assets.contains asset2.symbol)

/-- check_compatibility: run the seven requirement checks in source order,
collecting a failure reason for each violated one, and assemble the entry
with the derived gas, profit-threshold and position fields. -/
def check_compatibility (lenders : List LenderInfo)
    (strategy : StrategyRequirements) (dex : DexInfo)
    (lender : Option LenderInfo) (asset1 asset2 : AssetInfo) :
    CompatibilityEntry :=
  let checks : List (Bool × String) :=
    [ (dex.is_active, "DEX is inactive"),
      (decide (strategy.min_twap_stability ≤ dex.twap_stability_score),
        "TWAP stability below required"),
      (!strategy.requires_flash_swap || dex.supports_flash_swap,
        "Flash swap required but not supported"),
      (!strategy.requires_flash_loan || has_compatible_lender lenders dex asset1 asset2,
        "No compatible flash loan provider"),
      (asset1.is_whitelisted && asset2.is_whitelisted, "Asset not whitelisted"),
      (!(strategy.blacklisted_assets.contains asset1.symbol ||
         strategy.blacklisted_assets.contains asset2.symbol),
        "Asset is blacklisted for this strategy"),
      (decide (strategy.min_liquidity_usd ≤
         asset1.liquidity_score * asset2.liquidity_score * 100000),
        "Insufficient liquidity") ]
  { strategy_id := strategy.id
    strategy_name := strategy.name
    chain_id := dex.chain_id
    dex_name := dex.name
    lender_name := lender.map (fun l => l.name)
    asset_pair := (asset1.symbol, asset2.symbol)
    requirements_met := checks.all (fun c => c.1)
    failure_reasons := (checks.filter (fun c => !c.1)).map (fun c => c.2)
    estimated_gas := some (dex.gas_overhead + strategy.complexity_score * 25000)
    min_profit_threshold := some ((strategy.min_profit_bps : ℚ) / 10000)
    max_position_size := some (min asset1.max_trade_amount asset2.max_trade_amount) }

/-- The static tables the matrix manager iterates, HashMaps as association
lists keyed like the source. -/
structure MatrixState where
  strategies : List StrategyRequirements
  dexes : List ((ℕ × String) × DexInfo)
  lenders : List ((ℕ × String) × LenderInfo)
  assets : List ((ℕ × String) × AssetInfo)
  deriving DecidableEq

/-- The i < j double loop over the chain's assets. -/
def upperPairs {α : Type} : List α → List (α × α)
  | [] => []
  | x :: xs => xs.map (fun y => (x, y)) ++ upperPairs xs

/-- generate_matrix (fresh-generation path; the cache replays a previous
generation verbatim): for every strategy and every dex on a supported chain,
check every unordered pair of that chain's assets, always passing no lender. -/
def generate_matrix (m : MatrixState) : List CompatibilityEntry :=
  m.strategies.flatMap (fun strategy =>
    m.dexes.flatMap (fun dkv =>
      let chain_id := dkv.1.1
      let dex_info := dkv.2
      if strategy.supported_chains.contains chain_id then
        let chain_assets := m.assets.filter (fun akv => decide (akv.1.1 = chain_id))
        (upperPairs chain_assets).map (fun ap =>
          check_compatibility (m.lenders.map (fun lkv => lkv.2)) strategy dex_info
            none ap.1.2 ap.2.2)
      else []))

/-! ## Theorems -/

/-- C4: the equation total_executions = successful_executions +
failed_executions is preserved by update_stats: for every list of execution
results, if it holds when the stats write lock is taken, it holds when
update_stats returns and releases the lock (each result adds one to the
total and one to exactly one of the two outcome counters). -/
theorem update_stats_preserves_total_split (results : List ExecutionResult)
    (s : EngineStats)
    (h : s.total_executions = s.successful_executions + s.failed_executions) :
    (update_stats s results).total_executions =
      (update_stats s results).successful_executions +
        (update_stats s results).failed_executions := by
  induction results generalizing s with
  | nil => simpa [update_stats] using h
  | cons r rs ih =>
    simp only [update_stats, List.foldl_cons] at *
    apply ih
    by_cases hr : r.success <;> simp [updateStatsOne, hr] <;> omega

def sampleStats : EngineStats :=
  { total_cycles := 4, total_executions := 5, successful_executions := 3,
    failed_executions := 2, total_profit := 7, total_gas_used := 9 }

def sampleResults : List ExecutionResult :=
  [ { opportunity_id := "opp-a", success := true, actual_profit := 2, gas_used := some 100 },
    { opportunity_id := "opp-b", success := false, actual_profit := 0, gas_used := none } ]

theorem update_stats_preserves_total_split_witness :
    sampleStats.total_executions =
      sampleStats.successful_executions + sampleStats.failed_executions ∧
    (update_stats sampleStats sampleResults).total_executions =
      (update_stats sampleStats sampleResults).successful_executions +
        (update_stats sampleStats sampleResults).failed_executions :=
  ⟨by decide, update_stats_preserves_total_split sampleResults sampleStats (by decide)⟩

def requestAtDeadline : SimulationRequest :=
  { id := "sim-1", priority := .normal, submitted_at := 0, timeout_at := 5 }

/-- C8 counterexample: a popped request whose deadline exactly equals the
current instant is NOT counted TimedOut — the dispatcher's check is the
strict comparison Instant::now() > timeout_at, so at equality the request
is started (a permit being free). -/
theorem deadline_eq_now_not_timed_out :
    requestAtDeadline.timeout_at = 5 ∧
    (processor_step 5 1 [requestAtDeadline]).1 = .started ∧
    ¬ (processor_step 5 1 [requestAtDeadline]).1 = .timedOut := by
  decide

/-- C8 amended: a popped request is counted TimedOut and dropped precisely
when the current instant is strictly past its deadline; at exact equality
it proceeds to dispatch. -/
theorem popped_request_timed_out_iff_strict (now permits : ℕ)
    (request : SimulationRequest) (rest : List SimulationRequest) :
    processor_step now permits (request :: rest) = (.timedOut, rest) ↔
      request.timeout_at < now := by
  constructor
  · intro h
    by_contra hn
    by_cases hp : 0 < permits <;>
      simp [processor_step, hn, hp] at h
  · intro h
    simp [processor_step, h]

theorem popped_request_timed_out_iff_strict_witness :
    (processor_step 7 1 [requestAtDeadline] = (.timedOut, []) ↔
      requestAtDeadline.timeout_at < 7) ∧
    processor_step 7 1 [requestAtDeadline] = (.timedOut, []) :=
  ⟨popped_request_timed_out_iff_strict 7 1 requestAtDeadline [],
   (popped_request_timed_out_iff_strict 7 1 requestAtDeadline []).mpr (by decide)⟩

def statusDrift100 : TimeSyncStatus :=
  { system_time_utc := 1000, ntp_time_utc := some 900, drift_ms := some 100,
    is_synchronized := true }

def guardDrift100 : TimeGuard :=
  { config := TimeGuardConfig.default, last_status := some statusDrift100,
    drift_history := [100], consecutive_alerts := 0 }

/-- C7 counterexample: with the default thresholds, a synchronized status
with drift 100 ms has absolute drift strictly below the emergency threshold
(200 ms) — the claim says is_time_safe must be true — yet is_time_safe is
false, because the code compares against critical_threshold_ms (50 ms). -/
theorem time_safe_false_below_emergency :
    guardDrift100.last_status = some statusDrift100 ∧
    statusDrift100.is_synchronized = true ∧
    statusDrift100.drift_ms = some 100 ∧
    |(100 : ℤ)| < guardDrift100.config.emergency_threshold_ms ∧
    evaluate_drift guardDrift100 statusDrift100 ≠ .emergency ∧
    is_time_safe guardDrift100 = false := by
  decide

/-- C7 amended: is_time_safe is true iff the last status is synchronized
and its absolute drift is strictly below critical_threshold_ms (default
50 ms) — so time_safe turns false already at the Critical level, not first
at Emergency; evaluate_drift reports Emergency iff the absolute drift
reaches emergency_threshold_ms (default 200 ms). -/
theorem time_safe_iff_below_critical (g : TimeGuard) (status : TimeSyncStatus)
    (d : ℤ) (hs : g.last_status = some status) (hd : status.drift_ms = some d) :
    (is_time_safe g = true ↔
      (status.is_synchronized = true ∧ |d| < g.config.critical_threshold_ms)) ∧
    (evaluate_drift g status = .emergency ↔
      g.config.emergency_threshold_ms ≤ |d|) := by
  constructor
  · simp [is_time_safe, hs, hd]
  · simp only [evaluate_drift, hd]
    by_cases he : g.config.emergency_threshold_ms ≤ |d|
    · simp [he]
    · by_cases hc : g.config.critical_threshold_ms ≤ |d| <;>
        by_cases hw : g.config.warning_threshold_ms ≤ |d| <;>
        simp [he, hc, hw]

theorem time_safe_iff_below_critical_witness :
    ((is_time_safe guardDrift100 = true ↔
      (statusDrift100.is_synchronized = true ∧
        |(100 : ℤ)| < guardDrift100.config.critical_threshold_ms)) ∧
     (evaluate_drift guardDrift100 statusDrift100 = .emergency ↔
      guardDrift100.config.emergency_threshold_ms ≤ |(100 : ℤ)|)) :=
  time_safe_iff_below_critical guardDrift100 statusDrift100 100 rfl rfl

/-- C3: with the queue within its bound (an invariant submit itself
enforces), submit_simulation answers Rejected exactly when the queue
already holds max_queue_size requests or the system is overloaded
(backpressure active and CPU strictly above 95 percent); in every other
case it answers Queued. -/
theorem submit_rejected_iff_full_or_overload (s : GateState)
    (request : SimulationRequest)
    (hlen : s.queue.length ≤ s.thresholds.max_queue_size) :
    ((∃ reason, (submit_simulation s request).1 =
        SimulationSubmissionResult.rejected reason) ↔
      (s.queue.length = s.thresholds.max_queue_size ∨
        (s.backpressure_active = true ∧ (95 : ℚ) < s.cpu_usage_percent))) ∧
    ((∃ position wait, (submit_simulation s request).1 =
        SimulationSubmissionResult.queued position wait) ↔
      ¬ (s.queue.length = s.thresholds.max_queue_size ∨
        (s.backpressure_active = true ∧ (95 : ℚ) < s.cpu_usage_percent))) := by
  by_cases hr : should_reject_request s = true
  · have hro : s.backpressure_active = true ∧ (95 : ℚ) < s.cpu_usage_percent := by
      simpa [should_reject_request] using hr
    simp [submit_simulation, hr, hro]
  · have hro : ¬ (s.backpressure_active = true ∧ (95 : ℚ) < s.cpu_usage_percent) := by
      simpa [should_reject_request] using hr
    by_cases hq : s.thresholds.max_queue_size ≤ s.queue.length
    · have heq : s.queue.length = s.thresholds.max_queue_size := le_antisymm hlen hq
      simp [submit_simulation, hr, hq, heq, hro]
    · have hne : ¬ s.queue.length = s.thresholds.max_queue_size := by omega
      simp [submit_simulation, hr, hq, hne, hro]

def quietGate : GateState :=
  { thresholds :=
      { max_concurrent_sims := 2, cpu_threshold_percent := 80,
        memory_threshold_percent := 85, max_queue_size := 20,
        resource_check_interval_ms := 1000, simulation_timeout_ms := 30000 }
    queue := [requestAtDeadline]
    backpressure_active := false
    cpu_usage_percent := 40
    rejected_requests := 0
    queued_requests := 1
    timed_out_requests := 0
    average_execution_time_ms := 0 }

theorem submit_rejected_iff_full_or_overload_witness :
    quietGate.queue.length ≤ quietGate.thresholds.max_queue_size ∧
    (((∃ reason, (submit_simulation quietGate requestAtDeadline).1 =
        SimulationSubmissionResult.rejected reason) ↔
      (quietGate.queue.length = quietGate.thresholds.max_queue_size ∨
        (quietGate.backpressure_active = true ∧
          (95 : ℚ) < quietGate.cpu_usage_percent))) ∧
     ((∃ position wait, (submit_simulation quietGate requestAtDeadline).1 =
        SimulationSubmissionResult.queued position wait) ↔
      ¬ (quietGate.queue.length = quietGate.thresholds.max_queue_size ∨
        (quietGate.backpressure_active = true ∧
          (95 : ℚ) < quietGate.cpu_usage_percent)))) :=
  ⟨by decide,
   submit_rejected_iff_full_or_overload quietGate requestAtDeadline (by decide)⟩

/-- C9: RpcManager::new is partial: on a non-empty provider list the
current primary is the name of the first provider flagged is_primary, or
the name of the first provider when none is flagged; on the empty list the
providers[0] fallback is an out-of-bounds panic (modelled as none) rather
than an error value. -/
theorem rpc_manager_new_primary (providers : List RpcProvider) :
    (providers = [] → RpcManager_new providers = none) ∧
    (providers ≠ [] → ∃ s, RpcManager_new providers = some s ∧
      ((∃ p, providers.find? (fun q => q.is_primary) = some p ∧
          s.current_primary = p.name) ∨
       ((∀ p ∈ providers, p.is_primary = false) ∧
        ∃ p0 rest, providers = p0 :: rest ∧ s.current_primary = p0.name))) := by
  constructor
  · rintro rfl
    rfl
  · intro hne
    cases providers with
    | nil => exact absurd rfl hne
    | cons p0 rest =>
      cases hf : (p0 :: rest).find? (fun q => q.is_primary) with
      | some p =>
        refine ⟨{ providers := p0 :: rest, health_status := [],
                  current_primary := p.name, sticky_sessions := [],
                  client_cache := [], max_consecutive_failures := 3 },
                ?_, Or.inl ⟨p, rfl, rfl⟩⟩
        simp [RpcManager_new, initial_primary, hf]
      | none =>
        refine ⟨{ providers := p0 :: rest, health_status := [],
                  current_primary := p0.name, sticky_sessions := [],
                  client_cache := [], max_consecutive_failures := 3 },
                ?_, Or.inr ⟨?_, p0, rest, rfl, rfl⟩⟩
        · simp [RpcManager_new, initial_primary, hf]
        · intro p hp
          simpa using List.find?_eq_none.mp hf p hp

def providerAlpha : RpcProvider :=
  { name := "alpha", url := "https://alpha.example", weight := 100,
    timeout_ms := 5000, is_primary := false, supports_trace := false,
    supports_mempool := true, max_block_lag := 2 }

def providerBeta : RpcProvider :=
  { name := "beta", url := "https://beta.example", weight := 90,
    timeout_ms := 5000, is_primary := true, supports_trace := true,
    supports_mempool := true, max_block_lag := 3 }

theorem rpc_manager_new_primary_witness :
    (RpcManager_new [] = none) ∧
    (∃ s, RpcManager_new [providerAlpha, providerBeta] = some s ∧
      ((∃ p, [providerAlpha, providerBeta].find? (fun q => q.is_primary) = some p ∧
          s.current_primary = p.name) ∨
       ((∀ p ∈ [providerAlpha, providerBeta], p.is_primary = false) ∧
        ∃ p0 rest, [providerAlpha, providerBeta] = p0 :: rest ∧
          s.current_primary = p0.name))) :=
  ⟨(rpc_manager_new_primary []).1 rfl,
   (rpc_manager_new_primary [providerAlpha, providerBeta]).2 (by decide)⟩

theorem rankLE_trans (a b c : ArbitrageOpportunity) (h1 : rankLE a b = true)
    (h2 : rankLE b c = true) : rankLE a c = true := by
  simp only [rankLE, decide_eq_true_iff] at *
  exact le_trans h2 h1

theorem rankLE_total (a b : ArbitrageOpportunity) :
    (rankLE a b || rankLE b a) = true := by
  simp only [rankLE, Bool.or_eq_true, decide_eq_true_iff]
  exact le_total _ _

theorem pairwise_of_forall_mem {α : Type} {R : α → α → Prop} :
    ∀ l : List α, (∀ a ∈ l, ∀ b ∈ l, R a b) → l.Pairwise R := by
  intro l
  induction l with
  | nil => intro _; exact List.Pairwise.nil
  | cons x xs ih =>
    intro h
    refine List.Pairwise.cons (fun b hb => h x (by simp) b (by simp [hb])) ?_
    exact ih (fun a ha b hb => h a (by simp [ha]) b (by simp [hb]))

/-- A stable sort leaves each class of key-equal elements in input order:
the filter of the sorted list by any predicate that makes the comparator
total-and-true within the class equals the filter of the input. -/
theorem filter_mergeSort_eq {α : Type} (le : α → α → Bool)
    (htrans : ∀ a b c, le a b = true → le b c = true → le a c = true)
    (htotal : ∀ a b, (le a b || le b a) = true)
    (p : α → Bool) (hp : ∀ a b, p a = true → p b = true → le a b = true)
    (l : List α) : (l.mergeSort le).filter p = l.filter p := by
  have hpair : (l.filter p).Pairwise (fun a b => le a b = true) :=
    pairwise_of_forall_mem _ (fun a ha b hb =>
      hp a b (List.mem_filter.mp ha).2 (List.mem_filter.mp hb).2)
  have hsub : (l.filter p).Sublist (l.mergeSort le) :=
    List.sublist_mergeSort htrans htotal hpair (List.filter_sublist l)
  have h1 : ((l.filter p).filter p).Sublist ((l.mergeSort le).filter p) :=
    hsub.filter p
  have h2 : (l.filter p).filter p = l.filter p := by
    simp [List.filter_filter]
  rw [h2] at h1
  have hperm : ((l.mergeSort le).filter p).Perm (l.filter p) :=
    (List.mergeSort_perm l le).filter p
  exact (h1.eq_of_length hperm.length_eq.symm).symm

/-- C2: rank_opportunities fills each opportunity's risk_adjusted_profit
with expected_profit * (1 - risk_score) - gas_cost, sorts descending by it
stably (every class of equal risk-adjusted profits keeps its original
relative order), and returns the first max_concurrent_executions elements
of that sorted list. -/
theorem rank_opportunities_spec (riskScore : ArbitrageOpportunity → ℚ)
    (gasCost : String → String → ℚ) (max_concurrent : ℕ)
    (opps : List ArbitrageOpportunity) :
    ∃ sorted : List ArbitrageOpportunity,
      rank_opportunities riskScore gasCost max_concurrent opps =
        sorted.take max_concurrent ∧
      sorted.Perm (opps.map (fun o =>
        { o with risk_adjusted_profit :=
            o.expected_profit * (1 - riskScore o) -
              gasCost o.blockchain_from o.strategy })) ∧
      sorted.Pairwise (fun a b =>
        b.risk_adjusted_profit ≤ a.risk_adjusted_profit) ∧
      ∀ q : ℚ, sorted.filter (fun o => decide (o.risk_adjusted_profit = q)) =
        (opps.map (fun o =>
          { o with risk_adjusted_profit :=
              o.expected_profit * (1 - riskScore o) -
                gasCost o.blockchain_from o.strategy })).filter
          (fun o => decide (o.risk_adjusted_profit = q)) := by
  refine ⟨(opps.map (adjustProfit riskScore gasCost)).mergeSort rankLE,
    rfl, List.mergeSort_perm _ _, ?_, ?_⟩
  · exact (List.sorted_mergeSort rankLE_trans rankLE_total _).imp
      (fun h => by simpa [rankLE] using h)
  · intro q
    exact filter_mergeSort_eq rankLE rankLE_trans rankLE_total _
      (fun a b ha hb => by
        simp only [decide_eq_true_iff] at ha hb
        simp [rankLE, ha, hb]) _

def oppNegative : ArbitrageOpportunity :=
  { id := "opp-1", strategy := "simple-dex", blockchain_from := "ethereum",
    expected_profit := 1, risk_adjusted_profit := 0 }

/-- C1 counterexample: rank_opportunities applies no positivity filter, so
an opportunity whose risk-adjusted profit comes out at -1 (expected profit
1, risk score 0, gas cost 2) is still handed to execute_opportunities. -/
theorem nonpositive_opportunity_dispatched :
    ∃ o ∈ cycleDispatch (fun _ => 0) (fun _ _ => 2) 1 [oppNegative],
      o.risk_adjusted_profit ≤ 0 := by
  refine ⟨adjustProfit (fun _ => 0) (fun _ _ => 2) oppNegative, ?_, ?_⟩
  · simp [cycleDispatch, rank_opportunities, List.mergeSort_singleton]
  · norm_num [adjustProfit, oppNegative]

/-- C1 amended: the list handed from ranking to execute_opportunities is
exactly the first max_concurrent_executions elements of the stable
descending sort of the adjusted opportunities — so each dispatched
opportunity's risk-adjusted profit dominates every undispatched one's —
but no positivity filter is applied, and a dispatched opportunity may have
risk_adjusted_profit ≤ 0. -/
theorem dispatch_is_top_of_ranking (riskScore : ArbitrageOpportunity → ℚ)
    (gasCost : String → String → ℚ) (max_concurrent : ℕ)
    (opps : List ArbitrageOpportunity) :
    ∃ undispatched : List ArbitrageOpportunity,
      (opps.map (adjustProfit riskScore gasCost)).mergeSort rankLE =
        cycleDispatch riskScore gasCost max_concurrent opps ++ undispatched ∧
      (cycleDispatch riskScore gasCost max_concurrent opps).length ≤
        max_concurrent ∧
      ∀ a ∈ cycleDispatch riskScore gasCost max_concurrent opps,
        ∀ b ∈ undispatched,
          b.risk_adjusted_profit ≤ a.risk_adjusted_profit := by
  refine ⟨((opps.map (adjustProfit riskScore gasCost)).mergeSort rankLE).drop
    max_concurrent, (List.take_append_drop _ _).symm, List.length_take_le _ _, ?_⟩
  have hsorted : ((opps.map (adjustProfit riskScore gasCost)).mergeSort
      rankLE).Pairwise (fun a b =>
        b.risk_adjusted_profit ≤ a.risk_adjusted_profit) :=
    (List.sorted_mergeSort rankLE_trans rankLE_total _).imp
      (fun h => by simpa [rankLE] using h)
  intro a ha b hb
  exact hsorted.rel_of_mem_take_of_mem_drop ha hb

/-- C6: a checked (strategy, dex, asset1, asset2) combination has
requirements_met exactly when the dex is active, its TWAP stability reaches
the strategy's minimum, a required flash swap is supported by the dex, a
required flash loan has some active healthy-reserve lender on the dex's
chain supporting both assets, both assets are whitelisted, neither asset is
blacklisted for the strategy, and the product of the two liquidity scores
times 100000 reaches the strategy's min_liquidity_usd. -/
theorem requirements_met_iff (lenders : List LenderInfo)
    (strategy : StrategyRequirements) (dex : DexInfo)
    (lender : Option LenderInfo) (asset1 asset2 : AssetInfo) :
    (check_compatibility lenders strategy dex lender asset1 asset2).requirements_met
        = true ↔
      (dex.is_active = true ∧
       strategy.min_twap_stability ≤ dex.twap_stability_score ∧
       (strategy.requires_flash_swap = true → dex.supports_flash_swap = true) ∧
       (strategy.requires_flash_loan = true →
         ∃ l ∈ lenders, l.chain_id = dex.chain_id ∧ l.is_active = true ∧
           l.reserves_healthy = true ∧ asset1.symbol ∈ l.supported_assets ∧
           asset2.symbol ∈ l.supported_assets) ∧
       asset1.is_whitelisted = true ∧ asset2.is_whitelisted = true ∧
       asset1.symbol ∉ strategy.blacklisted_assets ∧
       asset2.symbol ∉ strategy.blacklisted_assets ∧
       strategy.min_liquidity_usd ≤
         asset1.liquidity_score * asset2.liquidity_score * 100000) := by
  by_cases hfs : strategy.requires_flash_swap <;>
    by_cases hfl : strategy.requires_flash_loan <;>
    simp [check_compatibility, has_compatible_lender, List.any_eq_true,
      hfs, hfl, and_assoc]

/-- C10: every entry generate_matrix produces carries lender_name = none —
the generation loop always calls check_compatibility with no lender, so the
lender dimension of the key is never populated, even for strategies that
require a flash loan. -/
theorem generate_matrix_lender_none (m : MatrixState) (e : CompatibilityEntry)
    (he : e ∈ generate_matrix m) : e.lender_name = none := by
  simp only [generate_matrix, List.mem_flatMap] at he
  obtain ⟨strategy, -, dkv, -, he⟩ := he
  by_cases hc : strategy.supported_chains.contains dkv.1.1 = true
  · rw [if_pos hc] at he
    simp only [List.mem_map] at he
    obtain ⟨ap, -, rfl⟩ := he
    rfl
  · rw [if_neg hc] at he
    cases he

def strategyFlashLoan : StrategyRequirements :=
  { id := "S007", name := "Flash Loan Arbitrage", requires_flash_loan := true,
    requires_flash_swap := false, min_liquidity_usd := 25000,
    max_slippage_bps := 100, min_twap_stability := 7/10,
    supported_chains := [1], blacklisted_assets := [], min_profit_bps := 25,
    max_gas_limit := 300000, complexity_score := 5 }

def dexUniswap : DexInfo :=
  { name := "Uniswap V3", chain_id := 1, router_address := "0xE592",
    factory_address := "0x1F98", supports_flash_swap := true,
    supported_fee_tiers := [500, 3000], twap_stability_score := 19/20,
    min_liquidity_threshold := 50000, gas_overhead := 180000,
    is_active := true }

def assetWeth : AssetInfo :=
  { symbol := "WETH", address := "0xC02a", chain_id := 1, decimals := 18,
    is_whitelisted := true, min_trade_amount := 1/100,
    max_trade_amount := 1000, volatility_score := 3/10,
    liquidity_score := 19/20 }

def assetUsdc : AssetInfo :=
  { symbol := "USDC", address := "0xA0b8", chain_id := 1, decimals := 6,
    is_whitelisted := true, min_trade_amount := 100,
    max_trade_amount := 10000000, volatility_score := 1/10,
    liquidity_score := 49/50 }

def matrixSmall : MatrixState :=
  { strategies := [strategyFlashLoan]
    dexes := [((1, "Uniswap V3"), dexUniswap)]
    lenders := []
    assets := [((1, "WETH"), assetWeth), ((1, "USDC"), assetUsdc)] }

theorem generate_matrix_lender_none_witness :
    check_compatibility [] strategyFlashLoan dexUniswap none assetWeth assetUsdc
        ∈ generate_matrix matrixSmall ∧
    (check_compatibility [] strategyFlashLoan dexUniswap none assetWeth
        assetUsdc).lender_name = none := by
  have hm : check_compatibility [] strategyFlashLoan dexUniswap none assetWeth
      assetUsdc ∈ generate_matrix matrixSmall := by
    simp [generate_matrix, matrixSmall, strategyFlashLoan, upperPairs]
  exact ⟨hm, generate_matrix_lender_none matrixSmall _ hm⟩

theorem get_client_spec (s : RpcManagerState) (c : String)
    (s' : RpcManagerState) (h : get_client s = some (c, s')) :
    c = s.current_primary ∧ s'.client_cache.contains c = true ∧
    s'.sticky_sessions = s.sticky_sessions ∧
    s'.health_status = s.health_status ∧
    s'.current_primary = s.current_primary ∧
    ∀ n : String, s.client_cache.contains n = true →
      s'.client_cache.contains n = true := by
  simp only [get_client] at h
  split at h
  · obtain ⟨rfl, rfl⟩ : s.current_primary = c ∧ s = s' := by
      simpa using h
    refine ⟨rfl, ?_, rfl, rfl, rfl, fun n hn => hn⟩
    assumption
  · split at h
    · obtain ⟨rfl, rfl⟩ :
        s.current_primary = c ∧
          ({ s with client_cache := s.current_primary :: s.client_cache } :
            RpcManagerState) = s' := by
        simpa using h
      refine ⟨rfl, by simp [List.contains_cons], rfl, rfl, rfl, ?_⟩
      intro n hn
      have hn' : n ∈ s.client_cache := by simpa using hn
      simp [List.contains_cons, hn']
    · cases h

theorem sticky_fallback_state (s : RpcManagerState) (y c : String)
    (s' : RpcManagerState) (h : sticky_fallback s y = some (c, s')) :
    ∃ s0, get_client s = some (c, s0) ∧
      s' = { s0 with
        sticky_sessions := (y, s.current_primary) :: s0.sticky_sessions } := by
  simp only [sticky_fallback] at h
  cases hg : get_client s with
  | none => rw [hg] at h; cases h
  | some cs =>
    obtain ⟨c0, s0⟩ := cs
    rw [hg] at h
    obtain ⟨rfl, rfl⟩ :
        c0 = c ∧
          ({ s0 with
            sticky_sessions := (y, s.current_primary) :: s0.sticky_sessions } :
            RpcManagerState) = s' := by
      simpa using h
    exact ⟨s0, rfl, rfl⟩

theorem sticky_fallback_spec (s : RpcManagerState) (y c : String)
    (s' : RpcManagerState) (h : sticky_fallback s y = some (c, s')) :
    s'.sticky_sessions.lookup y = some c ∧
    s'.client_cache.contains c = true ∧
    s'.health_status = s.health_status := by
  obtain ⟨s0, hg, rfl⟩ := sticky_fallback_state s y c s' h
  obtain ⟨hcp, hcc, _, hhs, _, _⟩ := get_client_spec s c s0 hg
  refine ⟨?_, hcc, hhs⟩
  subst hcp
  simp [List.lookup_cons]

/-- After a successful get_sticky_client returning endpoint e, the session
binds the simulation id to e and a client for e is cached. -/
theorem sticky_establish (s : RpcManagerState) (x e : String)
    (s₀ : RpcManagerState) (h : get_sticky_client s x = some (e, s₀)) :
    s₀.sticky_sessions.lookup x = some e ∧
    s₀.client_cache.contains e = true := by
  simp only [get_sticky_client] at h
  cases hl : s.sticky_sessions.lookup x with
  | none =>
    simp only [hl] at h
    obtain ⟨h1, h2, -⟩ := sticky_fallback_spec s x e s₀ h
    exact ⟨h1, h2⟩
  | some pn =>
    simp only [hl] at h
    cases hh : s.health_status.lookup pn with
    | none =>
      simp only [hh] at h
      obtain ⟨h1, h2, -⟩ := sticky_fallback_spec s x e s₀ h
      exact ⟨h1, h2⟩
    | some hc =>
      simp only [hh] at h
      by_cases hhe : hc.is_healthy = true
      · by_cases hcc : s.client_cache.contains pn = true
        · rw [if_pos hhe, if_pos hcc] at h
          obtain ⟨rfl, rfl⟩ : pn = e ∧ s = s₀ := by simpa using h
          exact ⟨hl, hcc⟩
        · rw [if_pos hhe, if_neg hcc] at h
          obtain ⟨h1, h2, -⟩ := sticky_fallback_spec s x e s₀ h
          exact ⟨h1, h2⟩
      · rw [if_neg hhe] at h
        obtain ⟨h1, h2, -⟩ := sticky_fallback_spec s x e s₀ h
        exact ⟨h1, h2⟩

/-- A bound, healthy, cached session is a pure hit: the bound endpoint's
client is returned and the state is untouched. -/
theorem sticky_hit (s : RpcManagerState) (x e : String)
    (hsess : s.sticky_sessions.lookup x = some e)
    (hcache : s.client_cache.contains e = true)
    (hh : healthyIn s e = true) :
    get_sticky_client s x = some (e, s) := by
  have hmem : e ∈ s.client_cache := by simpa using hcache
  simp only [healthyIn, healthyInTable] at hh
  cases hhs : s.health_status.lookup e with
  | none =>
    simp only [hhs] at hh
    simp at hh
  | some hc =>
    simp only [hhs] at hh
    simp [get_sticky_client, hsess, hhs, hh, hmem]

/-- The state after get_sticky_client is either unchanged (hit) or the
fallback binding of the current primary on top of a get_client state. -/
theorem get_sticky_state_spec (s : RpcManagerState) (y c : String)
    (s' : RpcManagerState) (h : get_sticky_client s y = some (c, s')) :
    s' = s ∨
    ∃ s0, get_client s = some (c, s0) ∧
      s' = { s0 with
        sticky_sessions := (y, s.current_primary) :: s0.sticky_sessions } := by
  simp only [get_sticky_client] at h
  cases hl : s.sticky_sessions.lookup y with
  | none =>
    simp only [hl] at h
    exact Or.inr (sticky_fallback_state s y c s' h)
  | some pn =>
    simp only [hl] at h
    cases hh : s.health_status.lookup pn with
    | none =>
      simp only [hh] at h
      exact Or.inr (sticky_fallback_state s y c s' h)
    | some hc =>
      simp only [hh] at h
      by_cases hhe : hc.is_healthy = true
      · by_cases hcc : s.client_cache.contains pn = true
        · rw [if_pos hhe, if_pos hcc] at h
          obtain ⟨rfl, rfl⟩ : pn = c ∧ s = s' := by simpa using h
          exact Or.inl rfl
        · rw [if_pos hhe, if_neg hcc] at h
          exact Or.inr (sticky_fallback_state s y c s' h)
      · rw [if_neg hhe] at h
        exact Or.inr (sticky_fallback_state s y c s' h)

theorem lookup_filter_ne (l : List (String × String)) (x y : String)
    (hxy : ¬ x = y) :
    (l.filter (fun p => !(p.1 == y))).lookup x = l.lookup x := by
  induction l with
  | nil => rfl
  | cons kv t ih =>
    obtain ⟨k, v⟩ := kv
    by_cases hky : k = y
    · subst hky
      have hxk : (x == k) = false := by simpa using hxy
      simp [List.filter_cons, List.lookup_cons, hxk, ih]
    · by_cases hxk : x = k <;>
        simp [List.filter_cons, List.lookup_cons, hky, hxk, ih]

theorem probe_step_projections (s : RpcManagerState)
    (htbl : List (String × HealthCheck)) :
    (probe_step s htbl).sticky_sessions = s.sticky_sessions ∧
    (probe_step s htbl).client_cache = s.client_cache ∧
    (probe_step s htbl).health_status = htbl := by
  refine ⟨?_, ?_, ?_⟩ <;>
    · simp only [probe_step]
      repeat' split
      all_goals rfl

/-- One allowed operation preserves the bound-healthy-cached invariant of a
sticky session. -/
theorem session_inv_step (x e : String) (s : RpcManagerState) (op : RpcOp)
    (hsess : s.sticky_sessions.lookup x = some e)
    (hcache : s.client_cache.contains e = true)
    (hh : healthyIn s e = true)
    (hop : keepsSession x e op = true) :
    (rpcStep s op).sticky_sessions.lookup x = some e ∧
    (rpcStep s op).client_cache.contains e = true ∧
    healthyIn (rpcStep s op) e = true := by
  cases op with
  | getSticky y =>
    by_cases hyx : y = x
    · subst hyx
      simp only [rpcStep]
      rw [sticky_hit s y e hsess hcache hh]
      exact ⟨hsess, hcache, hh⟩
    · simp only [rpcStep]
      cases hg : get_sticky_client s y with
      | none => exact ⟨hsess, hcache, hh⟩
      | some cs =>
        obtain ⟨c, s'⟩ := cs
        rcases get_sticky_state_spec s y c s' hg with rfl | ⟨s0, hg0, rfl⟩
        · exact ⟨hsess, hcache, hh⟩
        · obtain ⟨-, -, hsess0, hhs0, -, hmono⟩ := get_client_spec s c s0 hg0
          have hxy : (x == y) = false := by
            simpa using fun hc => hyx hc.symm
          refine ⟨?_, hmono e hcache, ?_⟩
          · show ((y, s.current_primary) :: s0.sticky_sessions).lookup x = some e
            simp [List.lookup_cons, hxy, hsess0, hsess]
          · show healthyInTable s0.health_status e = true
            rw [hhs0]
            exact hh
  | release y =>
    have hyx : (y == x) = false := by simpa [keepsSession] using hop
    have hxy : ¬ x = y := by
      intro hc
      subst hc
      simp at hyx
    refine ⟨?_, hcache, hh⟩
    show (s.sticky_sessions.filter (fun p => !(p.1 == y))).lookup x = some e
    rw [lookup_filter_ne _ x y hxy]
    exact hsess
  | getClientOp =>
    simp only [rpcStep]
    cases hg : get_client s with
    | none => exact ⟨hsess, hcache, hh⟩
    | some cs =>
      obtain ⟨c, s'⟩ := cs
      obtain ⟨-, -, hsess', hhs', -, hmono⟩ := get_client_spec s c s' hg
      refine ⟨?_, ?_, ?_⟩
      · show s'.sticky_sessions.lookup x = some e
        rw [hsess']
        exact hsess
      · show s'.client_cache.contains e = true
        exact hmono e hcache
      · show healthyInTable s'.health_status e = true
        rw [hhs']
        exact hh
  | probe htbl =>
    obtain ⟨hps, hpc, hph⟩ := probe_step_projections s htbl
    refine ⟨by rw [show (rpcStep s (.probe htbl)).sticky_sessions =
        s.sticky_sessions from hps]; exact hsess,
      by rw [show (rpcStep s (.probe htbl)).client_cache =
        s.client_cache from hpc]; exact hcache, ?_⟩
    show healthyInTable (rpcStep s (.probe htbl)).health_status e = true
    rw [show (rpcStep s (.probe htbl)).health_status = htbl from hph]
    simpa [keepsSession] using hop

theorem session_inv_fold (x e : String) :
    ∀ (ops : List RpcOp) (s : RpcManagerState),
      s.sticky_sessions.lookup x = some e →
      s.client_cache.contains e = true →
      healthyIn s e = true →
      (∀ op ∈ ops, keepsSession x e op = true) →
      (ops.foldl rpcStep s).sticky_sessions.lookup x = some e ∧
      (ops.foldl rpcStep s).client_cache.contains e = true ∧
      healthyIn (ops.foldl rpcStep s) e = true := by
  intro ops
  induction ops with
  | nil => exact fun s h1 h2 h3 _ => ⟨h1, h2, h3⟩
  | cons op rest ih =>
    intro s h1 h2 h3 hops
    rw [List.foldl_cons]
    obtain ⟨g1, g2, g3⟩ :=
      session_inv_step x e s op h1 h2 h3 (hops op (by simp))
    exact ih _ g1 g2 g3 (fun o ho => hops o (by simp [ho]))

/-- C5: sticky session round-trip.  If get_sticky_client binds simulation
id x to endpoint e and, across any sequence of pool operations, e stays
reported healthy and x is never released, then every later
get_sticky_client for x returns the client for e and leaves the state
unchanged. -/
theorem sticky_session_round_trip (s : RpcManagerState) (x e : String)
    (s₀ : RpcManagerState) (ops : List RpcOp)
    (h0 : get_sticky_client s x = some (e, s₀))
    (hh : healthyIn s₀ e = true)
    (hops : ∀ op ∈ ops, keepsSession x e op = true) :
    get_sticky_client (ops.foldl rpcStep s₀) x =
      some (e, ops.foldl rpcStep s₀) := by
  obtain ⟨h1, h2⟩ := sticky_establish s x e s₀ h0
  obtain ⟨g1, g2, g3⟩ := session_inv_fold x e ops s₀ h1 h2 hh hops
  exact sticky_hit _ x e g1 g2 g3

def healthOk : HealthCheck :=
  { is_healthy := true, latency_ms := 40, block_number := 100,
    consecutive_failures := 0 }

def rpcStart : RpcManagerState :=
  { providers := [providerAlpha], health_status := [("alpha", healthOk)],
    current_primary := "alpha", sticky_sessions := [], client_cache := [],
    max_consecutive_failures := 3 }

def rpcBound : RpcManagerState :=
  { providers := [providerAlpha], health_status := [("alpha", healthOk)],
    current_primary := "alpha", sticky_sessions := [("sim-7", "alpha")],
    client_cache := ["alpha"], max_consecutive_failures := 3 }

def traceOps : List RpcOp :=
  [.getSticky "sim-8", .getClientOp, .release "sim-8",
   .probe [("alpha", healthOk)]]

theorem sticky_session_round_trip_witness :
    get_sticky_client rpcStart "sim-7" = some ("alpha", rpcBound) ∧
    healthyIn rpcBound "alpha" = true ∧
    (∀ op ∈ traceOps, keepsSession "sim-7" "alpha" op = true) ∧
    get_sticky_client (traceOps.foldl rpcStep rpcBound) "sim-7" =
      some ("alpha", traceOps.foldl rpcStep rpcBound) :=
  ⟨by decide, by decide, by decide,
   sticky_session_round_trip rpcStart "sim-7" "alpha" rpcBound traceOps
     (by decide) (by decide) (by decide)⟩

end ArbitrageX
